import Mathlib

/-!
Verification of the fiction-dl challenge-solving transport and extraction
pipeline (files `fiction_dl/Utilities/FlareSolverr.py` and
`fiction_dl/Extractors/ExtractorFFNet.py`).

The Python code is shallowly embedded: network effects are passed in as
explicit environments (scripted transport results, scripted page fetches),
the process-wide session cache is threaded as explicit state, and exceptions
are modelled with explicit error values.  String processing is done over
`List Char` with hand-rolled, kernel-reducible primitives mirroring the
Python string/regex operations actually used by the code.
-/

namespace FDL
/-! ## Generic helpers (Python string primitives) -/

/-- ASCII lowercasing; models Python `str.lower` on the ASCII inputs the
code compares (`"session" in errorMsg.lower()`). -/
def lowerAscii (c : Char) : Char :=
  if 65 ≤ c.toNat ∧ c.toNat ≤ 90 then Char.ofNat (c.toNat + 32) else c

def lowerStr (s : String) : String := String.mk (s.data.map lowerAscii)

/-- Does `pat` occur as a prefix of `txt`? -/
def listStartsWith : List Char → List Char → Bool
  | [], _ => true
  | _ :: _, [] => false
  | p :: ps, t :: ts => p = t && listStartsWith ps ts

/-- Does `pat` occur as a contiguous sublist of `txt`?  Models Python's
`pat in txt` substring test. -/
def containsSubList (pat : List Char) : List Char → Bool
  | [] => listStartsWith pat []
  | t :: ts => listStartsWith pat (t :: ts) || containsSubList pat ts

/-- Models `"session" in msg.lower()` (FlareSolverr.py line 230). -/
def containsSession (msg : String) : Bool :=
  containsSubList ("session".data) ((lowerStr msg).data)

/-! ## Challenge-Solver Client (FlareSolverr.py)

The module-global `_flaresolverr_session` cache and the network are made
explicit.  A `TransportResult` is the outcome of one `requests.post` of a
`request.get` command: a timeout exception, any other exception (connection
error, non-2xx status via `raise_for_status`, JSON decode failure), or a
decoded JSON body with its optional `status`, `message` and
`solution.response` fields. -/

inductive TransportResult where
  | timeout
  | netError
  | response (status : Option String) (message : Option String) (solution : Option String)

/-- The scripted environment: `solve n` is the transport outcome of the
n-th `request.get` post, `create n` the session id produced by the n-th
`sessions.create` post (`none` = creation failed: non-ok status, missing
session field, or exception). -/
structure FSEnv where
  solve : Nat → TransportResult
  create : Nat → Option String

/-- One `request.get` post as issued by `SolveChallenge`: the target URL,
the session id carried in the request body (if any), and the `timeout=`
argument passed to `requests.post`, in seconds. -/
structure SolveRequest where
  url : String
  session : Option String
  timeoutSec : Nat
deriving DecidableEq

/-- Observable state: the cached session id (`_flaresolverr_session`), the
log of `request.get` posts issued, the number of `sessions.create` posts
issued, and the log of `time.sleep` durations. -/
structure FSState where
  cachedSession : Option String
  requests : List SolveRequest
  createCalls : Nat
  sleeps : List Nat
deriving DecidableEq

def initFSState (cached : Option String) : FSState :=
  { cachedSession := cached, requests := [], createCalls := 0, sleeps := [] }

/-- `CreateSession` (FlareSolverr.py lines 104-143): returns the cached
session if present; otherwise posts `sessions.create`, caching the id on
success and returning `none` on failure (cache unchanged). -/
def CreateSession (env : FSEnv) (s : FSState) : Option String × FSState :=
  match s.cachedSession with
  | some sid => (some sid, s)
  | none =>
    match env.create s.createCalls with
    | some sid =>
      (some sid, { s with cachedSession := some sid, createCalls := s.createCalls + 1 })
    | none => (none, { s with createCalls := s.createCalls + 1 })

/-- The `timeout=maxTimeout // 1000 + 30` argument of the `request.get`
post (FlareSolverr.py line 217), in seconds (`maxTimeout` is in ms). -/
def transportTimeoutSec (maxTimeout : Nat) : Nat := maxTimeout / 1000 + 30

/-- The retry loop of `SolveChallenge` (FlareSolverr.py lines 202-243),
structured by the number of remaining attempts.  An attempt posts
`request.get` (recorded in `requests`); on an ok-status response the
`solution.response` field is returned at once; on a failure response whose
message contains "session" (case-insensitively) the cache is invalidated
and `CreateSession` is re-run before the next attempt (no sleep on this
path); on a timeout or any other exception the loop sleeps 2 seconds
unless this was the last attempt. -/
def solveLoop (env : FSEnv) (url : String) (maxTimeout : Nat) :
    Nat → Option String → FSState → Option String × FSState
  | 0, _, s => (none, s)
  | rem + 1, session, s =>
    let r := env.solve s.requests.length
    let s1 := { s with requests :=
      s.requests ++ [⟨url, session, transportTimeoutSec maxTimeout⟩] }
    match r with
    | .response status message solution =>
      if status == some "ok" then (solution, s1)
      else
        let errorMsg := message.getD "Unknown error"
        if containsSession errorMsg then
          let s2 := { s1 with cachedSession := none }
          let p := CreateSession env s2
          solveLoop env url maxTimeout rem p.1 p.2
        else
          solveLoop env url maxTimeout rem session s1
    | .timeout =>
      let s2 := if rem ≠ 0 then { s1 with sleeps := s1.sleeps ++ [2] } else s1
      solveLoop env url maxTimeout rem session s2
    | .netError =>
      let s2 := if rem ≠ 0 then { s1 with sleeps := s1.sleeps ++ [2] } else s1
      solveLoop env url maxTimeout rem session s2

/-- `SolveChallenge` (FlareSolverr.py lines 179-245): obtain or create a
session, then run the retry loop; after exhausting all attempts the result
is `none`. -/
def SolveChallenge (env : FSEnv) (url : String) (maxTimeout maxRetries : Nat)
    (s : FSState) : Option String × FSState :=
  let p := CreateSession env s
  solveLoop env url maxTimeout maxRetries p.1 p.2

/-- Outcome of the `requests.get` liveness probe of
`IsFlareSolverrRunning`: any exception, or an HTTP status code. -/
inductive ProbeResult where
  | unreachable
  | gotStatus (code : Nat)

/-- `IsFlareSolverrRunning` (FlareSolverr.py lines 70-86): true exactly
when the probe returned status code 200; every exception yields false. -/
def IsFlareSolverrRunning (probe : ProbeResult) : Bool :=
  match probe with
  | .unreachable => false
  | .gotStatus code => code == 200

/-- `DestroySession` (FlareSolverr.py lines 146-176) acting on the cached
session: an early return when no session is cached, otherwise a
best-effort `sessions.destroy` post whose failure (`requestFails`) is
swallowed; the cache is cleared afterwards regardless of outcome. -/
def DestroySession (requestFails : Bool) (cached : Option String) : Option String :=
  match cached with
  | none => cached
  | some _ =>
    match requestFails with
    | true => none
    | false => none

/-- A transport outcome counts as a success exit only when it is a decoded
response with `status == "ok"`. -/
def isOkResult : TransportResult → Bool
  | .response st _ _ => st == some "ok"
  | _ => false

/-! ## Fetch Facade (ExtractorFFNet.py `_CheckFlareSolverr`, `_GetSoup`)

The extractor's three facade flags are made explicit, and one `_GetSoup`
call is modelled against the outcome the solver would produce for the URL
(`solveResult`) and the outcome the fallback `WebSession.GetSoup` would
produce (`fallbackResult`).  Parsed documents are represented by their
HTML text (`BeautifulSoup` is an opaque collaborator). -/

structure FacadeState where
  useFlareSolverr : Bool
  flareSolverrChecked : Bool
  flareSolverrAvailable : Bool
deriving DecidableEq

/-- The observable behaviour of one `_GetSoup` call: the returned soup
(`none` on failure), and which of the two fetch strategies were invoked. -/
structure FetchOutcome where
  soup : Option String
  solverInvoked : Bool
  fallbackInvoked : Bool
deriving DecidableEq

/-- `_GetSoup` (ExtractorFFNet.py lines 116-136): when a FlareSolverr port
is configured the solver is called; a truthy (non-empty) result is parsed
and returned, otherwise a warning is logged and the fallback fetcher's
result is returned.  Without a configured port only the fallback runs.
Note that the availability flags are never consulted here. -/
def GetSoupF (st : FacadeState) (solveResult fallbackResult : Option String) :
    FetchOutcome :=
  if st.useFlareSolverr then
    match solveResult with
    | some html =>
      if html = "" then ⟨fallbackResult, true, true⟩
      else ⟨some html, true, false⟩
    | none => ⟨fallbackResult, true, true⟩
  else ⟨fallbackResult, false, true⟩

/-- `_CheckFlareSolverr` (ExtractorFFNet.py lines 78-114): a one-time
availability check.  `probeRunning` is the result the liveness probe would
report.  Returns the availability verdict and the updated flags; on later
calls the cached verdict is returned unchanged. -/
def CheckFlareSolverr (st : FacadeState) (probeRunning : Bool) :
    Bool × FacadeState :=
  if st.flareSolverrChecked then (st.flareSolverrAvailable, st)
  else
    if st.useFlareSolverr = false then
      (false, { st with flareSolverrChecked := true, flareSolverrAvailable := false })
    else
      (probeRunning, { st with flareSolverrChecked := true,
                               flareSolverrAvailable := probeRunning })

/-! ## Chapter selection (ExtractorFFNet.py `ExtractChapter`, lines 165-192)

The URL-selection phase of `ExtractChapter`: the bound check
`index > len(self._chapterURLs)` rejects with `None` (no fetch), and
otherwise `self._chapterURLs[index - 1]` selects the URL to fetch, with
Python's signed-index semantics (negative positions count from the end; an
out-of-range position raises `IndexError`). -/

/-- Python list indexing `l[i]`: `none` models an `IndexError`. -/
def pyGet (l : List String) (i : Int) : Option String :=
  if 0 ≤ i then l[i.toNat]?
  else if 0 ≤ i + l.length then l[(i + l.length).toNat]?
  else none

inductive ChapterSelect where
  | rejected
  | indexError
  | fetch (url : String)
deriving DecidableEq

/-- The selection phase of `ExtractChapter`: reject when the index exceeds
the number of located chapter URLs, otherwise select
`chapterURLs[index - 1]` (raising when that position is out of range). -/
def SelectChapterURL (chapterURLs : List String) (index : Int) : ChapterSelect :=
  if (chapterURLs.length : Int) < index then .rejected
  else
    match pyGet chapterURLs (index - 1) with
    | some u => .fetch u
    | none => .indexError

/-! ## Shared string-scanning primitives

Kernel-reducible models of the Python string and `re` operations the
extractor uses: `str.strip`, `str.split`, `int(...)`, and leftmost-match
searching for the specific regular expressions in the source.  Character
classes are the ASCII classes of those patterns. -/

def pyIsSpace (c : Char) : Bool :=
  c = ' ' || c = '\t' || c = '\n' || c = '\r' || c.toNat = 11 || c.toNat = 12

def dropLeadingWs : List Char → List Char
  | [] => []
  | c :: cs => if pyIsSpace c then dropLeadingWs cs else c :: cs

def dropTrailingWs : List Char → List Char
  | [] => []
  | c :: cs =>
    match dropTrailingWs cs with
    | [] => if pyIsSpace c then [] else [c]
    | r => c :: r

/-- Python `str.strip()` (whitespace on both ends). -/
def trimChars (l : List Char) : List Char := dropTrailingWs (dropLeadingWs l)

def trimStr (s : String) : String := String.mk (trimChars s.data)

def pyIsDigit (c : Char) : Bool := 48 ≤ c.toNat && c.toNat ≤ 57

/-- Value of a run of decimal digit characters. -/
def digitRunVal (l : List Char) : Nat :=
  l.foldl (fun a c => a * 10 + (c.toNat - 48)) 0

/-- `int(...)` applied to a pure digit string: fails on an empty or
non-digit string (`ValueError`). -/
def digitsToNat? (l : List Char) : Option Nat :=
  if l.isEmpty then none
  else if l.all pyIsDigit then some (digitRunVal l) else none

/-- Python `int(str)` for optionally signed decimal text with surrounding
whitespace; `none` models a `ValueError`. -/
def pyIntChars? (l : List Char) : Option Int :=
  match trimChars l with
  | '-' :: rest => (digitsToNat? rest).map (fun n => -(n : Int))
  | '+' :: rest => (digitsToNat? rest).map (fun n => (n : Int))
  | rest => (digitsToNat? rest).map (fun n => (n : Int))

/-- Python `str.split(sep)` for a single-character separator (keeps empty
pieces, `"".split(sep) == [""]`). -/
def splitOnChar (sep : Char) : List Char → List (List Char)
  | [] => [[]]
  | c :: cs =>
    let r := splitOnChar sep cs
    if c = sep then [] :: r
    else
      match r with
      | h :: t => (c :: h) :: t
      | [] => [[c]]

/-- Decimal rendering of a natural number (Python f-string of an int). -/
def natStr (n : Nat) : String := String.mk (Nat.toDigits 10 n)

/-- Match a literal character sequence at the head of the input. -/
def matchLit : List Char → List Char → Option (List Char)
  | [], rest => some rest
  | _ :: _, [] => none
  | l :: ls, c :: cs => if c = l then matchLit ls cs else none

/-- Greedy run of characters of a class: the matched run and the rest.
Models a greedy `[...]+`/`[...]*` whose continuation cannot match a class
character (true for every pattern in this source, so no backtracking is
needed). -/
def takeClassGreedy (cls : Char → Bool) : List Char → List Char × List Char
  | [] => ([], [])
  | c :: cs =>
    if cls c then
      let p := takeClassGreedy cls cs
      (c :: p.1, p.2)
    else ([], c :: cs)

/-- `re.search` semantics: try the position matcher at every start
position, leftmost success wins. -/
def searchWith {α : Type} (m : List Char → Option α) : List Char → Option α
  | [] => m []
  | c :: cs =>
    match m (c :: cs) with
    | some r => some r
    | none => searchWith m cs

/-- Position matcher for `/s/(\d+)` (story-ID search in listing links). -/
def matchStoryIDAt (cs : List Char) : Option (List Char) :=
  match matchLit ['/', 's', '/'] cs with
  | none => none
  | some rest =>
    let p := takeClassGreedy pyIsDigit rest
    if p.1.isEmpty then none else some p.1

/-- Position matcher for `/s/(\d+)/` (story-ID pattern of `_GetStoryID`,
requiring a trailing slash). -/
def matchStoryIDSlashAt (cs : List Char) : Option (List Char) :=
  match matchLit ['/', 's', '/'] cs with
  | none => none
  | some rest =>
    let p := takeClassGreedy pyIsDigit rest
    if p.1.isEmpty then none
    else
      match p.2 with
      | '/' :: _ => some p.1
      | _ => none

def pyIsNameChar (c : Char) : Bool :=
  pyIsDigit c || (97 ≤ c.toNat && c.toNat ≤ 122)
    || (65 ≤ c.toNat && c.toNat ≤ 90) || c = '-'

/-- Position matcher for `/community/([a-zA-Z0-9-]+)/(\d+)`. -/
def matchCommunityAt (cs : List Char) : Option (String × String) :=
  match matchLit ['/', 'c', 'o', 'm', 'm', 'u', 'n', 'i', 't', 'y', '/'] cs with
  | none => none
  | some r1 =>
    let p1 := takeClassGreedy pyIsNameChar r1
    if p1.1.isEmpty then none
    else
      match p1.2 with
      | '/' :: r2 =>
        let p2 := takeClassGreedy pyIsDigit r2
        if p2.1.isEmpty then none else some (String.mk p1.1, String.mk p2.1)
      | _ => none

/-! ## Collection enumeration (ExtractorFFNet.py `_ScanCollection`)

A collection page is modelled by what `_ScanCollection` queries of it: the
`center > a` anchors (their stripped text and optional `href`), and the
`div.z-list` entries (each entry's `a.stitle` href, `none` when the anchor
or its href is missing).  `env` scripts `_GetSoup`, `getSiteURL` stands
for the external `GetSiteURL` collaborator; the second component of every
result is the log of fetched URLs, in order.  `Except.error` models an
uncaught exception (`KeyError` on a missing `href`, `ValueError` from
`int(...)`). -/

structure CenterLink where
  text : String
  href : Option String
deriving DecidableEq

structure ZEntry where
  href : Option String
deriving DecidableEq

structure CPage where
  centerLinks : List CenterLink
  zList : List ZEntry
deriving DecidableEq

/-- The `for elementCandidate in soup.select("center > a")` loop with its
`break`: the first anchor whose stripped text equals "Last". -/
def findLastLink : List CenterLink → Option CenterLink
  | [] => none
  | l :: ls => if trimStr l.text = "Last" then some l else findLastLink ls

/-- Lines 295-311 of `_ScanCollection`: `lastPageIndex` starts at 1; a
truthy "Last" href is split on "/" and, when it has more than 8 pieces,
piece [-6] is parsed with `int(...)`. -/
def computeLastPageIndex (page : CPage) : Except Unit Int :=
  match findLastLink page.centerLinks with
  | none => Except.ok 1
  | some l =>
    match l.href with
    | none => Except.error ()
    | some rel =>
      if rel = "" then Except.ok 1
      else
        let parts := splitOnChar '/' rel.data
        if parts.length > 8 then
          match pyIntChars? (parts.getD (parts.length - 6) []) with
          | some k => Except.ok k
          | none => Except.error ()
        else Except.ok 1

/-- Story-ID extraction from one `a.stitle` href (`/s/(\d+)`). -/
def storyIDFromHref (href : String) : Option String :=
  (searchWith matchStoryIDAt href.data).map String.mk

/-- The per-page `div.z-list` loop: entries with a missing anchor/href or
an unmatched story-ID pattern are logged and skipped. -/
def collectPageIDs : List ZEntry → List String
  | [] => []
  | e :: es =>
    match e.href with
    | none => collectPageIDs es
    | some h =>
      match storyIDFromHref h with
      | none => collectPageIDs es
      | some sid => sid :: collectPageIDs es

/-- The page URL `f"{collectionURL}/99/0/{pageIndex}/0/0/0/0/"`. -/
def pageURLOf (collectionURL : String) (i : Nat) : String :=
  collectionURL ++ "/99/0/" ++ natStr i ++ "/0/0/0/0/"

/-- The `for pageIndex in range(1, lastPageIndex + 1)` loop: each page is
fetched (appended to the log); a failed fetch aborts the whole enumeration
with `None`; otherwise the page's story IDs are accumulated. -/
def scanPagesLoop (env : String → Option CPage) (collectionURL : String) :
    List Nat → List String → List String →
    (Except Unit (Option (List String))) × List String
  | [], acc, log => (Except.ok (some acc), log)
  | i :: is, acc, log =>
    let u := pageURLOf collectionURL i
    match env u with
    | none => (Except.ok none, log ++ [u])
    | some page =>
      scanPagesLoop env collectionURL is (acc ++ collectPageIDs page.zList) (log ++ [u])

/-- `_ScanCollection` (ExtractorFFNet.py lines 259-343): normalize the URL
to its first results page, fetch it, derive the last page index, fetch
every page from 1 through that index accumulating story IDs, and map the
IDs to story URLs. -/
def ScanCollection (getSiteURL : String → String) (env : String → Option CPage)
    (URL : String) : (Except Unit (Option (List String))) × List String :=
  match searchWith matchCommunityAt URL.data with
  | none => (Except.ok none, [])
  | some nc =>
    let siteURL := getSiteURL URL
    let collectionURL := siteURL ++ "/community/" ++ nc.1 ++ "/" ++ nc.2
    let normalizedURL := collectionURL ++ "/99/0/1/0/0/0/0/"
    match env normalizedURL with
    | none => (Except.ok none, [normalizedURL])
    | some page =>
      match computeLastPageIndex page with
      | Except.error e => (Except.error e, [normalizedURL])
      | Except.ok k =>
        let r := scanPagesLoop env collectionURL (List.range' 1 k.toNat) [] [normalizedURL]
        match r.1 with
        | Except.ok (some ids) =>
          (Except.ok (some (ids.map (fun sid => siteURL ++ "/s/" ++ sid ++ "/"))), r.2)
        | other => (other, r.2)

/-! ## Date machinery (ExtractorFFNet.py `_TimestampToDate`,
`_ParseDateString`, `_ExtractDateFromText`)

`datetime.strptime` restricted to the ten formats the source tries is
modelled format-by-format.  CPython compiles each format to a regex
(numeric directives `%m %d` → `\d{1,2}`, `%y` → `\d{1,2}`, `%Y` →
`\d{1,4}`, whitespace → `\s+`, month names → case-insensitive
alternation), matches it as a prefix and then rejects the parse when input
remains; in all ten formats every numeric directive is followed by a
non-digit literal, whitespace or end of pattern, so greedy matching
without backtracking is equivalent and is what the parsers below do.
`strftime("%Y-%m-%d")` zero-pads month and day to two digits and prints
the year in decimal (datetime years are 1..9999, so four decimal cases
suffice). -/

def digitChar (k : Nat) : Char := Char.ofNat (48 + k)

def digitVal? (c : Char) : Option Nat :=
  if pyIsDigit c then some (c.toNat - 48) else none

/-- Greedy continuation of a numeric directive: up to `fuel` further
digits. -/
def parseNumAux : Nat → Nat → List Char → Nat × List Char
  | 0, acc, cs => (acc, cs)
  | _ + 1, acc, [] => (acc, [])
  | fuel + 1, acc, c :: cs =>
    match digitVal? c with
    | some k => parseNumAux fuel (acc * 10 + k) cs
    | none => (acc, c :: cs)

/-- A numeric directive `\d{1,maxW}`, greedy. -/
def parseNum (maxW : Nat) : List Char → Option (Nat × List Char)
  | [] => none
  | c :: cs =>
    match digitVal? c with
    | some k =>
      match maxW with
      | 0 => none
      | w + 1 => some (parseNumAux w k cs)
    | none => none

def expectChar (ch : Char) : List Char → Option (List Char)
  | [] => none
  | c :: cs => if c = ch then some cs else none

/-- `\s*`. -/
def skipSpaces : List Char → List Char
  | [] => []
  | c :: cs => if pyIsSpace c then skipSpaces cs else c :: cs

/-- `\s+`. -/
def spaces1 : List Char → Option (List Char)
  | [] => none
  | c :: cs => if pyIsSpace c then some (skipSpaces cs) else none

/-- Case-insensitive literal match (the input side is lowercased, the
pattern is given lowercase). -/
def matchCI : List Char → List Char → Option (List Char)
  | [], rest => some rest
  | _ :: _, [] => none
  | n :: ns, c :: cs => if lowerAscii c = n then matchCI ns cs else none

def monthAbbrevs : List (Nat × List Char) :=
  [(1, ['j', 'a', 'n']), (2, ['f', 'e', 'b']), (3, ['m', 'a', 'r']),
   (4, ['a', 'p', 'r']), (5, ['m', 'a', 'y']), (6, ['j', 'u', 'n']),
   (7, ['j', 'u', 'l']), (8, ['a', 'u', 'g']), (9, ['s', 'e', 'p']),
   (10, ['o', 'c', 't']), (11, ['n', 'o', 'v']), (12, ['d', 'e', 'c'])]

def monthFulls : List (Nat × List Char) :=
  [(1, ['j', 'a', 'n', 'u', 'a', 'r', 'y']),
   (2, ['f', 'e', 'b', 'r', 'u', 'a', 'r', 'y']),
   (3, ['m', 'a', 'r', 'c', 'h']),
   (4, ['a', 'p', 'r', 'i', 'l']),
   (5, ['m', 'a', 'y']),
   (6, ['j', 'u', 'n', 'e']),
   (7, ['j', 'u', 'l', 'y']),
   (8, ['a', 'u', 'g', 'u', 's', 't']),
   (9, ['s', 'e', 'p', 't', 'e', 'm', 'b', 'e', 'r']),
   (10, ['o', 'c', 't', 'o', 'b', 'e', 'r']),
   (11, ['n', 'o', 'v', 'e', 'm', 'b', 'e', 'r']),
   (12, ['d', 'e', 'c', 'e', 'm', 'b', 'e', 'r'])]

/-- `%b`/`%B`: first month name matching as a case-insensitive prefix (the
name tables are prefix-free, so alternation order is immaterial). -/
def matchMonth : List (Nat × List Char) → List Char → Option (Nat × List Char)
  | [], _ => none
  | p :: rest, cs =>
    match matchCI p.2 cs with
    | some r => some (p.1, r)
    | none => matchMonth rest cs

def isLeap (y : Nat) : Bool := (y % 4 == 0 && y % 100 != 0) || y % 400 == 0

def daysInMonth (y m : Nat) : Nat :=
  if m = 2 then (if isLeap y then 29 else 28)
  else if m = 4 ∨ m = 6 ∨ m = 9 ∨ m = 11 then 30
  else 31

structure PDate where
  y : Nat
  m : Nat
  d : Nat
deriving DecidableEq

/-- The validation the `datetime` constructor performs (year 1..9999,
month 1..12, day within the month). -/
def validDate (y m d : Nat) : Bool :=
  decide (1 ≤ y) && decide (y ≤ 9999) && decide (1 ≤ m) && decide (m ≤ 12)
    && decide (1 ≤ d) && decide (d ≤ daysInMonth y m)

def mkPDate (y m d : Nat) : Option PDate :=
  if validDate y m d then some ⟨y, m, d⟩ else none

/-- Decimal digits of `n` for `n ≤ 9999` (the datetime year range). -/
def natToDec (n : Nat) : List Char :=
  if n < 10 then [digitChar n]
  else if n < 100 then [digitChar (n / 10), digitChar (n % 10)]
  else if n < 1000 then [digitChar (n / 100), digitChar (n / 10 % 10), digitChar (n % 10)]
  else [digitChar (n / 1000), digitChar (n / 100 % 10), digitChar (n / 10 % 10),
        digitChar (n % 10)]

/-- Two-digit zero-padded rendering (`%m`, `%d`). -/
def pad2 (n : Nat) : List Char :=
  if n < 10 then ['0', digitChar n] else [digitChar (n / 10), digitChar (n % 10)]

/-- `parsed.strftime("%Y-%m-%d")`. -/
def strftimeYMD (p : PDate) : String :=
  String.mk (natToDec p.y ++ '-' :: (pad2 p.m ++ '-' :: pad2 p.d))

/-- `"%m/%d/%Y"`. -/
def fmtSlashMDY (cs : List Char) : Option PDate :=
  (parseNum 2 cs).bind fun md =>
  (expectChar '/' md.2).bind fun r1 =>
  (parseNum 2 r1).bind fun dd =>
  (expectChar '/' dd.2).bind fun r2 =>
  (parseNum 4 r2).bind fun yy =>
  if yy.2.isEmpty then mkPDate yy.1 md.1 dd.1 else none

/-- `"%m/%d/%y"` with the 1969..2068 century rule of `%y`. -/
def fmtSlashMDy (cs : List Char) : Option PDate :=
  (parseNum 2 cs).bind fun md =>
  (expectChar '/' md.2).bind fun r1 =>
  (parseNum 2 r1).bind fun dd =>
  (expectChar '/' dd.2).bind fun r2 =>
  (parseNum 2 r2).bind fun yy =>
  if yy.2.isEmpty then
    mkPDate (if yy.1 ≤ 68 then 2000 + yy.1 else 1900 + yy.1) md.1 dd.1
  else none

/-- `"%m/%d"`: strptime validates against its default year 1900, then the
source replaces the year with the current year (revalidating). -/
def fmtSlashMD (cy : Nat) (cs : List Char) : Option PDate :=
  (parseNum 2 cs).bind fun md =>
  (expectChar '/' md.2).bind fun r1 =>
  (parseNum 2 r1).bind fun dd =>
  if dd.2.isEmpty then
    (mkPDate 1900 md.1 dd.1).bind fun _ => mkPDate cy md.1 dd.1
  else none

/-- `"%b %d, %Y"` / `"%b %d %Y"` / `"%B %d, %Y"` / `"%B %d %Y"`. -/
def fmtMonthDY (tbl : List (Nat × List Char)) (comma : Bool) (cs : List Char) :
    Option PDate :=
  (matchMonth tbl cs).bind fun mm =>
  (spaces1 mm.2).bind fun r1 =>
  (parseNum 2 r1).bind fun dd =>
  ((if comma then expectChar ',' dd.2 else some dd.2)).bind fun r2 =>
  (spaces1 r2).bind fun r3 =>
  (parseNum 4 r3).bind fun yy =>
  if yy.2.isEmpty then mkPDate yy.1 mm.1 dd.1 else none

/-- `"%Y-%m-%d"`. -/
def fmtISO (cs : List Char) : Option PDate :=
  (parseNum 4 cs).bind fun yy =>
  (expectChar '-' yy.2).bind fun r1 =>
  (parseNum 2 r1).bind fun mm =>
  (expectChar '-' mm.2).bind fun r2 =>
  (parseNum 2 r2).bind fun dd =>
  if dd.2.isEmpty then mkPDate yy.1 mm.1 dd.1 else none

/-- `"%d %b %Y"` / `"%d %B %Y"`. -/
def fmtDMonY (tbl : List (Nat × List Char)) (cs : List Char) : Option PDate :=
  (parseNum 2 cs).bind fun dd =>
  (spaces1 dd.2).bind fun r1 =>
  (matchMonth tbl r1).bind fun mm =>
  (spaces1 mm.2).bind fun r2 =>
  (parseNum 4 r2).bind fun yy =>
  if yy.2.isEmpty then mkPDate yy.1 mm.1 dd.1 else none

/-- The ordered format list of `_ParseDateString` (first success wins). -/
def tryFormats (cy : Nat) (cs : List Char) : Option PDate :=
  (fmtSlashMDY cs).orElse fun _ =>
  (fmtSlashMDy cs).orElse fun _ =>
  (fmtSlashMD cy cs).orElse fun _ =>
  (fmtMonthDY monthAbbrevs true cs).orElse fun _ =>
  (fmtMonthDY monthAbbrevs false cs).orElse fun _ =>
  (fmtMonthDY monthFulls true cs).orElse fun _ =>
  (fmtMonthDY monthFulls false cs).orElse fun _ =>
  (fmtISO cs).orElse fun _ =>
  (fmtDMonY monthAbbrevs cs).orElse fun _ =>
  fmtDMonY monthFulls cs

/-- `_ParseDateString` (ExtractorFFNet.py lines 553-595): empty input
fails at once; otherwise the stripped input is tried against the format
list and the first successful parse is rendered as `YYYY-MM-DD`.
`cy` is the `datetime.now().year` used by the `"%m/%d"` format. -/
def ParseDateString (cy : Nat) (dateStr : String) : Option String :=
  if dateStr = "" then none
  else (tryFormats cy (trimChars dateStr.data)).map strftimeYMD

/-- Position matcher for `{dateType}:\s*([\d]+/[\d]+(?:/[\d]+)?)`;
returns the captured group text. -/
def matchNumericDateAt (lit : List Char) (cs : List Char) : Option (List Char) :=
  (matchLit lit cs).bind fun r0 =>
  let r1 := skipSpaces r0
  let p1 := takeClassGreedy pyIsDigit r1
  if p1.1.isEmpty then none
  else
    (expectChar '/' p1.2).bind fun r2 =>
    let p2 := takeClassGreedy pyIsDigit r2
    if p2.1.isEmpty then none
    else
      match p2.2 with
      | '/' :: r3 =>
        let p3 := takeClassGreedy pyIsDigit r3
        if p3.1.isEmpty then some (p1.1 ++ '/' :: p2.1)
        else some (p1.1 ++ '/' :: p2.1 ++ '/' :: p3.1)
      | _ => some (p1.1 ++ '/' :: p2.1)

def pyIsAlpha (c : Char) : Bool :=
  (97 ≤ c.toNat && c.toNat ≤ 122) || (65 ≤ c.toNat && c.toNat ≤ 90)

/-- Exactly `k` characters of a class, with the matched text. -/
def takeExactClass (cls : Char → Bool) : Nat → List Char → Option (List Char × List Char)
  | 0, cs => some ([], cs)
  | _ + 1, [] => none
  | k + 1, c :: cs =>
    if cls c then (takeExactClass cls k cs).map (fun p => (c :: p.1, p.2)) else none

/-- `\s+` with the matched text. -/
def takeSpaces1 (cs : List Char) : Option (List Char × List Char) :=
  match cs with
  | [] => none
  | c :: cs2 =>
    if pyIsSpace c then
      let p := takeClassGreedy pyIsSpace cs2
      some (c :: p.1, p.2)
    else none

/-- `\d{1,2}` with the matched text. -/
def takeDigits12 (cs : List Char) : Option (List Char × List Char) :=
  match cs with
  | [] => none
  | c :: cs2 =>
    if pyIsDigit c then
      match cs2 with
      | c2 :: cs3 =>
        if pyIsDigit c2 then some ([c, c2], cs3) else some ([c], c2 :: cs3)
      | [] => some ([c], [])
    else none

/-- Position matcher for
`{dateType}:\s*([A-Za-z]{3}\s+\d{1,2},?\s+\d{4})`. -/
def matchTextDateAt (lit : List Char) (cs : List Char) : Option (List Char) :=
  (matchLit lit cs).bind fun r0 =>
  let r1 := skipSpaces r0
  (takeExactClass pyIsAlpha 3 r1).bind fun pa =>
  (takeSpaces1 pa.2).bind fun ps1 =>
  (takeDigits12 ps1.2).bind fun pd =>
  (match pd.2 with
   | ',' :: r => some ((([','] : List Char), r))
   | r => some (([] : List Char), r)).bind fun q =>
  (takeSpaces1 q.2).bind fun ps2 =>
  (takeExactClass pyIsDigit 4 ps2.2).bind fun py =>
  some (pa.1 ++ ps1.1 ++ pd.1 ++ q.1 ++ ps2.1 ++ py.1)

/-- Position matcher for `{dateType}:\s*(\d{4}-\d{2}-\d{2})`. -/
def matchISODateAt (lit : List Char) (cs : List Char) : Option (List Char) :=
  (matchLit lit cs).bind fun r0 =>
  let r1 := skipSpaces r0
  (takeExactClass pyIsDigit 4 r1).bind fun p1 =>
  (expectChar '-' p1.2).bind fun r2 =>
  (takeExactClass pyIsDigit 2 r2).bind fun p2 =>
  (expectChar '-' p2.2).bind fun r3 =>
  (takeExactClass pyIsDigit 2 r3).bind fun p3 =>
  some (p1.1 ++ '-' :: p2.1 ++ '-' :: p3.1)

/-- `_ExtractDateFromText` (ExtractorFFNet.py lines 516-551): three
patterns tried in order; a pattern whose leftmost match's group fails to
parse falls through to the next pattern. -/
def ExtractDateFromText (cy : Nat) (text dateType : String) : Option String :=
  if text = "" then none
  else
    let lit := dateType.data ++ [':']
    match
      match searchWith (matchNumericDateAt lit) text.data with
      | some g => ParseDateString cy (String.mk g)
      | none => none
    with
    | some r => some r
    | none =>
      match
        match searchWith (matchTextDateAt lit) text.data with
        | some g => ParseDateString cy (String.mk g)
        | none => none
      with
      | some r => some r
      | none =>
        match searchWith (matchISODateAt lit) text.data with
        | some g => ParseDateString cy (String.mk g)
        | none => none

/-- Days-to-civil-date conversion (the standard era-based algorithm, with
C-style truncating division as in its reference implementation). -/
def civilFromDays (z0 : Int) : Int × Nat × Nat :=
  let z := z0 + 719468
  let era := Int.tdiv (if 0 ≤ z then z else z - 146096) 146097
  let doe := z - era * 146097
  let yoe := Int.tdiv (doe - Int.tdiv doe 1460 + Int.tdiv doe 36524 - Int.tdiv doe 146096) 365
  let y := yoe + era * 400
  let doy := doe - (365 * yoe + Int.tdiv yoe 4 - Int.tdiv yoe 100)
  let mp := Int.tdiv (5 * doy + 2) 153
  let d := doy - Int.tdiv (153 * mp + 2) 5 + 1
  let m := if mp < 10 then mp + 3 else mp - 9
  (if m ≤ 2 then y + 1 else y, m.toNat, d.toNat)

/-- `_TimestampToDate` (ExtractorFFNet.py lines 494-514): falsy input
fails; `int(...)` failure (`ValueError`) fails; the timestamp is converted
with `datetime.fromtimestamp` — modelled here for a UTC environment — and
a timestamp outside the supported year range (a `ValueError`/`OSError`)
fails. -/
def TimestampToDate (timestamp : String) : Option String :=
  if timestamp = "" then none
  else
    match pyIntChars? timestamp.data with
    | none => none
    | some ts =>
      let c := civilFromDays (Int.fdiv ts 86400)
      if 1 ≤ c.1 ∧ c.1 ≤ 9999 then some (strftimeYMD ⟨c.1.toNat, c.2.1, c.2.2⟩)
      else none

/-! ## Story metadata scan (ExtractorFFNet.py `_InternallyScanStory`)

The input document is reduced to what the scan queries of it: whether the
`profile_top` header exists, its text lines (after the `Follow/Fav`
removal and newline split), and the `data-xutime` attribute values of its
spans bearing that attribute, in document order.  `stripHTML`,
`getSiteURL` and the current date/year are the external collaborators.
`ScanResult.error` models an uncaught exception (`IndexError` on a short
header, `ValueError` from `int("")` when the word-count group is all
commas). -/

structure HeaderData where
  lines : List String
  xutimes : List String

structure StoryMetadata where
  Title : String
  Author : String
  Summary : String
  DatePublished : String
  DateUpdated : String
  ChapterCount : Nat
  WordCount : Nat
deriving DecidableEq

inductive ScanResult where
  | success (md : StoryMetadata) (chapterURLs : List String)
  | failure
  | error
deriving DecidableEq

/-- Python truthiness of an optional string (`None` and `""` are falsy). -/
def pyTruthy : Option String → Bool
  | none => false
  | some s => !(s == "")

/-- `re.search("Words: ([\d,]+)", line)`: the captured group. -/
def matchWordsAt (cs : List Char) : Option (List Char) :=
  (matchLit ['W', 'o', 'r', 'd', 's', ':', ' '] cs).bind fun r =>
  let p := takeClassGreedy (fun c => pyIsDigit c || c = ',') r
  if p.1.isEmpty then none else some p.1

def searchWords (line : String) : Option (List Char) :=
  searchWith matchWordsAt line.data

/-- `re.search("Chapters: (\d+)", line)`: the captured group. -/
def matchChaptersAt (cs : List Char) : Option (List Char) :=
  (matchLit ['C', 'h', 'a', 'p', 't', 'e', 'r', 's', ':', ' '] cs).bind fun r =>
  let p := takeClassGreedy pyIsDigit r
  if p.1.isEmpty then none else some p.1

def searchChapters (line : String) : Option (List Char) :=
  searchWith matchChaptersAt line.data

/-- `_GetStoryID` (ExtractorFFNet.py lines 482-492). -/
def GetStoryID (URL : String) : Option String :=
  if URL = "" then none
  else (searchWith matchStoryIDSlashAt URL.data).map String.mk

/-- Python `s[4:]`. -/
def dropStr (n : Nat) (s : String) : String := String.mk (s.data.drop n)

/-- `_InternallyScanStory` (ExtractorFFNet.py lines 345-439).  The header
lines are accessed as in the source: `headerLines[3]` first (an
out-of-range access raises), then — once index 3 is known to exist —
indices 0..2 (always in range, read with `getD`). -/
def InternallyScanStory (cy : Nat) (currentDate : String)
    (stripHTML getSiteURL : String → String)
    (metadataURL : String) (hdr : Option HeaderData) : ScanResult :=
  match hdr with
  | none => ScanResult.failure
  | some h =>
    match h.lines[3]? with
    | none => ScanResult.error
    | some line3 =>
      let chapterCountG := searchChapters line3
      match searchWords line3 with
      | none => ScanResult.failure
      | some wordsG =>
        let n := h.xutimes.length
        let dateUpdatedTs : Option String :=
          if 2 ≤ n then some (h.xutimes.getD (n - 2) "") else none
        let datePublishedTs : Option String :=
          if 2 ≤ n then some (h.xutimes.getD (n - 1) "")
          else if n = 1 then some (h.xutimes.getD (n - 1) "")
          else none
        let datePublished0 : Option String :=
          if pyTruthy datePublishedTs then TimestampToDate (datePublishedTs.getD "")
          else ExtractDateFromText cy line3 "Published"
        let datePublished : String :=
          if pyTruthy datePublished0 then datePublished0.getD "" else currentDate
        let dateUpdated : Option String :=
          if pyTruthy dateUpdatedTs then TimestampToDate (dateUpdatedTs.getD "")
          else ExtractDateFromText cy line3 "Updated"
        let dateUpdatedFinal : String :=
          if pyTruthy dateUpdated then dateUpdated.getD "" else datePublished
        let wordDigits := wordsG.filter (fun c => !(c == ','))
        if wordDigits.isEmpty then ScanResult.error
        else
          let md : StoryMetadata :=
            { Title := trimStr (h.lines.getD 0 ""),
              Author := trimStr (dropStr 4 (h.lines.getD 1 "")),
              Summary := trimStr (stripHTML (h.lines.getD 2 "")),
              DatePublished := datePublished,
              DateUpdated := dateUpdatedFinal,
              ChapterCount :=
                match chapterCountG with
                | some g => digitRunVal g
                | none => 1,
              WordCount := digitRunVal wordDigits }
          match GetStoryID metadataURL with
          | none => ScanResult.failure
          | some sid =>
            ScanResult.success md ((List.range' 1 md.ChapterCount).map
              (fun i => getSiteURL metadataURL ++ "/s/" ++ sid ++ "/" ++ natStr i ++ "/"))

/-! ## Theorems -/

/-! ### Lemmas about the retry loop -/

theorem solveLoop_none_of_noOk (env : FSEnv) (url : String) (mt : Nat)
    (h : ∀ n, isOkResult (env.solve n) = false) :
    ∀ rem session s, (solveLoop env url mt rem session s).1 = none := by
  intro rem
  induction rem with
  | zero => intro session s; rfl
  | succ k ih =>
    intro session s
    have hs := h s.requests.length
    cases hr : env.solve s.requests.length with
    | timeout => simp only [solveLoop, hr]; split <;> exact ih _ _
    | netError => simp only [solveLoop, hr]; split <;> exact ih _ _
    | response st msg sol =>
      have hst : (st == some "ok") = false := by
        simpa [isOkResult, hr] using hs
      simp only [solveLoop, hr]
      split
      · simp_all
      · split <;> exact ih _ _

theorem solveLoop_timeouts (env : FSEnv) (url : String) (mt : Nat) :
    ∀ rem session s,
      (∀ q ∈ s.requests, q.timeoutSec = transportTimeoutSec mt) →
      ∀ q ∈ (solveLoop env url mt rem session s).2.requests,
        q.timeoutSec = transportTimeoutSec mt := by
  intro rem
  induction rem with
  | zero => intro session s hs q hq; exact hs q hq
  | succ k ih =>
    intro session s hs
    have hs1 : ∀ q ∈ s.requests ++ [(⟨url, session, transportTimeoutSec mt⟩ : SolveRequest)],
        q.timeoutSec = transportTimeoutSec mt := by
      intro q hq
      rcases List.mem_append.mp hq with h1 | h2
      · exact hs q h1
      · simp only [List.mem_singleton] at h2; subst h2; rfl
    have hcr : ∀ s2 : FSState, (CreateSession env s2).2.requests = s2.requests := by
      intro s2
      simp only [CreateSession]
      split
      · rfl
      · split <;> rfl
    cases hr : env.solve s.requests.length with
    | timeout =>
      simp only [solveLoop, hr]
      split <;> exact ih _ _ hs1
    | netError =>
      simp only [solveLoop, hr]
      split <;> exact ih _ _ hs1
    | response st msg sol =>
      simp only [solveLoop, hr]
      split
      · exact hs1
      · split
        · apply ih
          intro q hq
          apply hs1
          rw [hcr] at hq
          exact hq
        · exact ih _ _ hs1

/-! ### Claim theorems for the Challenge-Solver Client -/

/-- C2: `SolveChallenge` with `maxRetries = 3` against a transport that
times out on every attempt performs exactly 3 request attempts, sleeps the
fixed 2-second backoff exactly twice (never after the last attempt), and
returns `none` without raising. -/
theorem solve_three_timeouts (createEnv : Nat → Option String)
    (cached : Option String) (u : String) (mt : Nat) :
    ((SolveChallenge ⟨fun _ => TransportResult.timeout, createEnv⟩ u mt 3
        (initFSState cached)).1 = none)
    ∧ ((SolveChallenge ⟨fun _ => TransportResult.timeout, createEnv⟩ u mt 3
        (initFSState cached)).2.requests.length = 3)
    ∧ ((SolveChallenge ⟨fun _ => TransportResult.timeout, createEnv⟩ u mt 3
        (initFSState cached)).2.sleeps = [2, 2]) := by
  cases cached with
  | some sid =>
    refine ⟨rfl, ?_, rfl⟩
    rfl
  | none =>
    cases hc : createEnv 0 with
    | some sid =>
      simp [SolveChallenge, CreateSession, initFSState, hc, solveLoop]
    | none =>
      simp [SolveChallenge, CreateSession, initFSState, hc, solveLoop]

/-- C5: when the first attempt's response is a failure whose error message
contains "session" (case-insensitively), the cached session is invalidated
and a new one is created and carried by attempt 2; when attempt 2 returns
an ok response, `SolveChallenge` returns exactly its content. -/
theorem solve_session_recovery (u sid0 sid1 m c : String)
    (st0 msg1 sol0 : Option String) (mt : Nat)
    (hst : st0 ≠ some "ok") (hm : containsSession m = true) :
    ((SolveChallenge
        ⟨fun n => if n = 0 then TransportResult.response st0 (some m) sol0
                  else TransportResult.response (some "ok") msg1 (some c),
          fun _ => some sid1⟩
        u mt 3 (initFSState (some sid0))).1 = some c)
    ∧ ((SolveChallenge
        ⟨fun n => if n = 0 then TransportResult.response st0 (some m) sol0
                  else TransportResult.response (some "ok") msg1 (some c),
          fun _ => some sid1⟩
        u mt 3 (initFSState (some sid0))).2.requests.map SolveRequest.session
          = [some sid0, some sid1])
    ∧ ((SolveChallenge
        ⟨fun n => if n = 0 then TransportResult.response st0 (some m) sol0
                  else TransportResult.response (some "ok") msg1 (some c),
          fun _ => some sid1⟩
        u mt 3 (initFSState (some sid0))).2.cachedSession = some sid1) := by
  have hst' : (st0 == some "ok") = false := by
    simpa using hst
  refine ⟨?_, ?_, ?_⟩ <;>
    simp [SolveChallenge, CreateSession, initFSState, solveLoop, hst', hm]

/-- C5 witness: a concrete run exercising the session-recovery theorem. -/
theorem solve_session_recovery_witness :
    ((SolveChallenge
        ⟨fun n => if n = 0 then TransportResult.response (some "error")
                    (some "Session not found.") none
                  else TransportResult.response (some "ok") none (some "HTML"),
          fun _ => some "s1"⟩
        "u" 60000 3 (initFSState (some "s0"))).1 = some "HTML")
    ∧ ((SolveChallenge
        ⟨fun n => if n = 0 then TransportResult.response (some "error")
                    (some "Session not found.") none
                  else TransportResult.response (some "ok") none (some "HTML"),
          fun _ => some "s1"⟩
        "u" 60000 3 (initFSState (some "s0"))).2.requests.map SolveRequest.session
          = [some "s0", some "s1"]) := by
  have h := solve_session_recovery "u" "s0" "s1" "Session not found." "HTML"
    (some "error") none none 60000 (by decide) (by decide)
  exact ⟨h.1, h.2.1⟩

/-- C8 (amended): every `request.get` post issued by `SolveChallenge`
carries the transport timeout `maxTimeout / 1000 + 30` seconds; in
milliseconds this always strictly exceeds the requested challenge-solving
timeout, by at most 30000 ms, and by exactly 30000 ms precisely when
`maxTimeout` is a whole number of seconds (as the default 60000 is). -/
theorem solve_transport_timeout_budget (env : FSEnv) (u : String)
    (mt mr : Nat) (cached : Option String) (q : SolveRequest)
    (hq : q ∈ (SolveChallenge env u mt mr (initFSState cached)).2.requests) :
    q.timeoutSec = mt / 1000 + 30
    ∧ mt < 1000 * q.timeoutSec
    ∧ 1000 * q.timeoutSec ≤ mt + 30000
    ∧ (mt % 1000 = 0 → 1000 * q.timeoutSec = mt + 30000) := by
  have hinit : ∀ r ∈ (CreateSession env (initFSState cached)).2.requests,
      SolveRequest.timeoutSec r = transportTimeoutSec mt := by
    intro r hr
    simp only [CreateSession, initFSState] at hr
    cases cached <;> simp at hr
    rcases hc : env.create 0 with _ | sid <;> simp [hc] at hr
  have h := solveLoop_timeouts env u mt mr
    (CreateSession env (initFSState cached)).1
    (CreateSession env (initFSState cached)).2 hinit q hq
  have ht : q.timeoutSec = mt / 1000 + 30 := h
  refine ⟨ht, ?_, ?_, ?_⟩ <;> rw [ht] <;> omega

/-- C8 witness: at the default `maxTimeout = 60000` the transport timeout
is 90 s, exactly 30 s more than the requested 60 s. -/
theorem solve_transport_timeout_budget_witness :
    ((SolveChallenge ⟨fun _ => TransportResult.timeout, fun _ => none⟩
        "u" 60000 1 (initFSState none)).2.requests.map SolveRequest.timeoutSec = [90])
    ∧ 1000 * 90 = 60000 + 30000 := by
  have h := solve_transport_timeout_budget
    ⟨fun _ => TransportResult.timeout, fun _ => none⟩ "u" 60000 1 none
    ⟨"u", none, 90⟩ (by decide)
  exact ⟨by decide, h.2.2.2 (by decide)⟩

/-- C8 counterexample: with `maxTimeout = 500` ms the transport timeout is
30 s = 30000 ms, which exceeds the requested 500 ms by 29500 ms, not by a
fixed margin of 30 time units (30000 ms) — the claimed fixed margin fails
whenever `maxTimeout` is not a multiple of 1000. -/
theorem solve_transport_timeout_margin_counterexample :
    ((SolveChallenge ⟨fun _ => TransportResult.timeout, fun _ => none⟩
        "u" 500 1 (initFSState none)).2.requests.map SolveRequest.timeoutSec = [30])
    ∧ ¬ (1000 * 30 = 500 + 30000) := by
  exact ⟨by decide, by decide⟩

/-- C9: totality of the public client operations under the expected
failure modes: the liveness probe returns false (never raises) on any
exception and on any non-200 status; `SolveChallenge` returns `none` for
every scripted run in which no transport response has ok status (timeouts,
unreachable endpoints, malformed responses, non-success statuses); and
`DestroySession` always returns normally with the cache cleared, whether
or not the destroy post fails. -/
theorem client_operations_total :
    (IsFlareSolverrRunning ProbeResult.unreachable = false)
    ∧ (∀ code, code ≠ 200 → IsFlareSolverrRunning (ProbeResult.gotStatus code) = false)
    ∧ (∀ (env : FSEnv) (u : String) (mt mr : Nat) (s : FSState),
        (∀ n, isOkResult (env.solve n) = false) →
        (SolveChallenge env u mt mr s).1 = none)
    ∧ (∀ (b : Bool) (cached : Option String), DestroySession b cached = none) := by
  refine ⟨rfl, ?_, ?_, ?_⟩
  · intro code hc
    simp [IsFlareSolverrRunning, hc]
  · intro env u mt mr s h
    exact solveLoop_none_of_noOk env u mt h mr _ _
  · intro b cached
    cases cached <;> cases b <;> rfl

/-- C3 counterexample: with challenge solving configured, the availability
check already performed and the service reported unavailable, `_GetSoup`
still invokes the solver and returns its content — the claim that the
request then proceeds using only the fallback fetcher is false. -/
theorem getSoup_unavailable_counterexample :
    ((GetSoupF ⟨true, true, false⟩ (some "x") (some "y")).solverInvoked = true)
    ∧ ((GetSoupF ⟨true, true, false⟩ (some "x") (some "y")).soup = some "x") := by
  exact ⟨rfl, rfl⟩

/-- C3 (amended): `_GetSoup` consults only whether a FlareSolverr port is
configured — the availability flags (and hence the one-time check) never
change which fetch path is taken; whenever the solver path is taken and
returns nothing, the facade falls through to the fallback fetcher instead
of returning absence outright. -/
theorem getSoup_fallback_behaviour (st : FacadeState)
    (solveResult fallbackResult : Option String) (c a p : Bool) :
    (GetSoupF st solveResult fallbackResult
      = GetSoupF ⟨st.useFlareSolverr, c, a⟩ solveResult fallbackResult)
    ∧ (GetSoupF (CheckFlareSolverr st p).2 solveResult fallbackResult
      = GetSoupF st solveResult fallbackResult)
    ∧ (st.useFlareSolverr = true → solveResult = none →
        GetSoupF st solveResult fallbackResult = ⟨fallbackResult, true, true⟩)
    ∧ (st.useFlareSolverr = false →
        GetSoupF st solveResult fallbackResult = ⟨fallbackResult, false, true⟩) := by
  obtain ⟨u, ch, av⟩ := st
  refine ⟨?_, ?_, ?_, ?_⟩
  · simp [GetSoupF]
  · simp only [CheckFlareSolverr]
    cases ch <;> cases u <;> simp [GetSoupF]
  · intro hu hs
    subst hs
    simp only at hu
    subst hu
    simp [GetSoupF]
  · intro hu
    simp only at hu
    subst hu
    simp [GetSoupF]

/-- C3 witness: a concrete unavailable-service run in which the solver
returned nothing and the fallback result was served. -/
theorem getSoup_fallback_behaviour_witness :
    GetSoupF ⟨true, true, false⟩ none (some "y") = ⟨some "y", true, true⟩ := by
  exact (getSoup_fallback_behaviour ⟨true, true, false⟩ none (some "y")
    true false true).2.2.1 rfl rfl

/-- C10 counterexample: with a single located chapter URL, index `-1` has
absolute value at most the URL count and passes the bound check, but the
selection at Python position `-2` raises `IndexError` instead of selecting
a chapter URL, contradicting the claim that every such index selects a
URL. -/
theorem selectChapter_negative_counterexample :
    (¬ ((1 : Int) < -1))
    ∧ (Int.natAbs (-1) ≤ 1)
    ∧ (SelectChapterURL ["u1"] (-1) = ChapterSelect.indexError)
    ∧ (SelectChapterURL [] 0 = ChapterSelect.indexError) := by
  refine ⟨by decide, by decide, ?_, ?_⟩ <;> rfl

/-- C10 (amended): `ExtractChapter` rejects without fetching exactly the
indices strictly greater than the number of located chapter URLs; every
index `i ≤ len` with `1 ≤ i + len` (in particular index 0 when at least
one URL exists, and negative indices of absolute value at most `len - 1`)
passes the bound check and selects the URL at Python position `i - 1`, so
index 0 fetches the last chapter's URL; the remaining in-bound indices
(index `-len`, and index 0 with no URLs) raise `IndexError`. -/
theorem selectChapter_bounds (urls : List String) (i : Int) :
    (SelectChapterURL urls i = ChapterSelect.rejected ↔ (urls.length : Int) < i)
    ∧ (1 ≤ i + urls.length → i ≤ urls.length →
        ∃ u, pyGet urls (i - 1) = some u
          ∧ SelectChapterURL urls i = ChapterSelect.fetch u)
    ∧ (urls ≠ [] →
        ∃ u, urls.getLast? = some u
          ∧ SelectChapterURL urls 0 = ChapterSelect.fetch u)
    ∧ (i + urls.length = 0 → SelectChapterURL urls i = ChapterSelect.indexError) := by
  have hfetch : ∀ (j : Int) (u : String), ¬ ((urls.length : Int) < j) →
      pyGet urls (j - 1) = some u → SelectChapterURL urls j = ChapterSelect.fetch u := by
    intro j u hnr hg
    unfold SelectChapterURL
    rw [if_neg hnr, hg]
  have hsome : ∀ j : Int, 1 ≤ j + urls.length → j ≤ urls.length →
      ∃ u, pyGet urls (j - 1) = some u := by
    intro j h1 h2
    rcases le_or_lt 1 j with hj | hj
    · have h0 : (0 : Int) ≤ j - 1 := by omega
      have hlt : (j - 1).toNat < urls.length := by omega
      refine ⟨urls[(j - 1).toNat], ?_⟩
      unfold pyGet
      rw [if_pos h0, List.getElem?_eq_getElem hlt]
    · have h0 : ¬ ((0 : Int) ≤ j - 1) := by omega
      have h0' : (0 : Int) ≤ j - 1 + urls.length := by omega
      have hlt : (j - 1 + urls.length).toNat < urls.length := by omega
      refine ⟨urls[(j - 1 + urls.length).toNat], ?_⟩
      unfold pyGet
      rw [if_neg h0, if_pos h0', List.getElem?_eq_getElem hlt]
  refine ⟨?_, ?_, ?_, ?_⟩
  · constructor
    · intro h
      by_contra hlt
      unfold SelectChapterURL at h
      rw [if_neg hlt] at h
      rcases hg : pyGet urls (i - 1) with _ | u <;> rw [hg] at h <;> simp at h
    · intro h
      unfold SelectChapterURL
      rw [if_pos h]
  · intro h1 h2
    have hnr : ¬ ((urls.length : Int) < i) := by omega
    obtain ⟨u, hu⟩ := hsome i h1 h2
    exact ⟨u, hu, hfetch i u hnr hu⟩
  · intro hne
    have hlen : 1 ≤ urls.length := List.length_pos.mpr hne
    have h1 : (1 : Int) ≤ 0 + urls.length := by omega
    have h2 : (0 : Int) ≤ urls.length := by omega
    obtain ⟨u, hu⟩ := hsome 0 h1 h2
    have hnr : ¬ ((urls.length : Int) < 0) := by omega
    refine ⟨u, ?_, hfetch 0 u hnr hu⟩
    have h0 : ¬ ((0 : Int) ≤ 0 - 1) := by omega
    have h0' : (0 : Int) ≤ 0 - 1 + urls.length := by omega
    have hlt : ((0 : Int) - 1 + urls.length).toNat < urls.length := by omega
    unfold pyGet at hu
    rw [if_neg h0, if_pos h0', List.getElem?_eq_getElem hlt] at hu
    have hidx : ((0 : Int) - 1 + urls.length).toNat = urls.length - 1 := by omega
    rw [List.getLast?_eq_getElem?, List.getElem?_eq_getElem (by omega : urls.length - 1 < urls.length)]
    rw [← hu]
    congr 1
    congr 1
    omega
  · intro h
    have hnr : ¬ ((urls.length : Int) < i) := by omega
    have h0 : ¬ ((0 : Int) ≤ i - 1) := by omega
    have h0' : ¬ ((0 : Int) ≤ i - 1 + urls.length) := by omega
    have hg : pyGet urls (i - 1) = none := by
      unfold pyGet
      rw [if_neg h0, if_neg h0']
    unfold SelectChapterURL
    rw [if_neg hnr, hg]

/-- C10 witness: concrete instances — index 0 on a two-chapter list
fetches the last URL, index 1 fetches the first, index `-2` raises. -/
theorem selectChapter_bounds_witness :
    (SelectChapterURL ["u1", "u2"] 0 = ChapterSelect.fetch "u2")
    ∧ (SelectChapterURL ["u1", "u2"] 1 = ChapterSelect.fetch "u1")
    ∧ (SelectChapterURL ["u1", "u2"] (-2) = ChapterSelect.indexError)
    ∧ (SelectChapterURL ["u1", "u2"] 3 = ChapterSelect.rejected) := by
  refine ⟨?_, ?_, ?_, ?_⟩
  · obtain ⟨u, hu, hsel⟩ := (selectChapter_bounds ["u1", "u2"] 0).2.2.1 (by decide)
    have he : u = "u2" := by
      have h2 := hu
      simp at h2
      exact h2.symm
    exact he ▸ hsel
  · obtain ⟨u, hu, hsel⟩ := (selectChapter_bounds ["u1", "u2"] 1).2.1
      (by decide) (by decide)
    have he : u = "u1" := by
      have h2 := hu
      simp [pyGet] at h2
      exact h2.symm
    exact he ▸ hsel
  · exact (selectChapter_bounds ["u1", "u2"] (-2)).2.2.2 (by decide)
  · exact ((selectChapter_bounds ["u1", "u2"] 3).1).mpr (by decide)

/-- The enumeration loop's fetch log: the given prefix followed by the
page URLs of the visited indices, in order, provided every loop fetch
succeeds. -/
theorem scanPagesLoop_log (env : String → Option CPage) (cURL : String) :
    ∀ (is : List Nat) (acc log : List String),
      (∀ i ∈ is, env (pageURLOf cURL i) ≠ none) →
      (scanPagesLoop env cURL is acc log).2 = log ++ is.map (pageURLOf cURL) := by
  intro is
  induction is with
  | nil => intro acc log h; simp [scanPagesLoop]
  | cons i is ih =>
    intro acc log h
    have hi := h i (List.mem_cons_self i is)
    rcases he : env (pageURLOf cURL i) with _ | page
    · exact absurd he hi
    · simp only [scanPagesLoop, he]
      rw [ih _ _ (fun j hj => h j (List.mem_cons_of_mem i hj))]
      simp

/-- C4 counterexample: a collection whose first results page has no "Last"
link; the first page URL is fetched twice (once to discover the page
count, once by the enumeration loop), so the claimed "exactly one page is
fetched in total" fails — two fetch operations occur. -/
theorem scanCollection_single_page_counterexample :
    ((ScanCollection (fun _ => "h") (fun _ => some ⟨[], []⟩) "h/community/a/1").2
      = ["h/community/a/1/99/0/1/0/0/0/0/", "h/community/a/1/99/0/1/0/0/0/0/"])
    ∧ ((ScanCollection (fun _ => "h") (fun _ => some ⟨[], []⟩) "h/community/a/1").2.length ≠ 1) := by
  exact ⟨by decide, by decide⟩

/-- C4 (amended): collection enumeration fetches the normalized first-page
URL once to discover the last page index `k`, then fetches pages 1 through
`k` in increasing order — so the first page is fetched twice (the
normalized URL equals the loop's page-1 URL) and the distinct pages
fetched are exactly 1 through `k`; with no "Last" link, `k = 1`. -/
theorem scanCollection_fetch_order (getSiteURL : String → String)
    (env : String → Option CPage) (URL : String) (nc : String × String)
    (page : CPage) (k : Int)
    (hc : searchWith matchCommunityAt URL.data = some nc)
    (hp : env (getSiteURL URL ++ "/community/" ++ nc.1 ++ "/" ++ nc.2
        ++ "/99/0/1/0/0/0/0/") = some page)
    (hk : computeLastPageIndex page = Except.ok k)
    (hall : ∀ i ∈ List.range' 1 k.toNat,
      env (pageURLOf (getSiteURL URL ++ "/community/" ++ nc.1 ++ "/" ++ nc.2) i) ≠ none) :
    ((ScanCollection getSiteURL env URL).2
      = (getSiteURL URL ++ "/community/" ++ nc.1 ++ "/" ++ nc.2 ++ "/99/0/1/0/0/0/0/")
        :: (List.range' 1 k.toNat).map
            (pageURLOf (getSiteURL URL ++ "/community/" ++ nc.1 ++ "/" ++ nc.2)))
    ∧ ((getSiteURL URL ++ "/community/" ++ nc.1 ++ "/" ++ nc.2 ++ "/99/0/1/0/0/0/0/")
        = pageURLOf (getSiteURL URL ++ "/community/" ++ nc.1 ++ "/" ++ nc.2) 1) := by
  constructor
  · have hlog := scanPagesLoop_log env
      (getSiteURL URL ++ "/community/" ++ nc.1 ++ "/" ++ nc.2)
      (List.range' 1 k.toNat) []
      [getSiteURL URL ++ "/community/" ++ nc.1 ++ "/" ++ nc.2 ++ "/99/0/1/0/0/0/0/"] hall
    simp only [ScanCollection, hc, hp, hk]
    split
    · rw [hlog]; rfl
    · rw [hlog]; rfl
  · show _ = _ ++ "/99/0/" ++ natStr 1 ++ "/0/0/0/0/"
    have h1 : natStr 1 = "1" := by decide
    rw [h1]
    apply String.ext
    simp [String.data_append]

/-- C4 witness: a "Last" link encoding page index 5 makes the enumeration
fetch the first page and then pages 1 through 5 in increasing order. -/
theorem scanCollection_fetch_order_witness :
    (ScanCollection (fun _ => "h")
      (fun _ => some ⟨[⟨"Last", some "/c/a/1/99/0/5/0/0/0/0/"⟩], []⟩)
      "h/community/a/1").2
      = ["h/community/a/1/99/0/1/0/0/0/0/",
         "h/community/a/1/99/0/1/0/0/0/0/",
         "h/community/a/1/99/0/2/0/0/0/0/",
         "h/community/a/1/99/0/3/0/0/0/0/",
         "h/community/a/1/99/0/4/0/0/0/0/",
         "h/community/a/1/99/0/5/0/0/0/0/"] := by
  have h := scanCollection_fetch_order (fun _ => "h")
    (fun _ => some ⟨[⟨"Last", some "/c/a/1/99/0/5/0/0/0/0/"⟩], []⟩)
    "h/community/a/1" ("a", "1")
    ⟨[⟨"Last", some "/c/a/1/99/0/5/0/0/0/0/"⟩], []⟩ 5
    (by decide) rfl rfl (by intro i hi; simp)
  rw [h.1]
  decide

/-! ### Lemmas about dates and the metadata scan -/

theorem natToDec_ne_nil (n : Nat) : natToDec n ≠ [] := by
  unfold natToDec
  split
  · simp
  · split
    · simp
    · split <;> simp

theorem strftimeYMD_ne_empty (p : PDate) : strftimeYMD p ≠ "" := by
  intro h
  have hd : natToDec p.y ++ '-' :: (pad2 p.m ++ '-' :: pad2 p.d) = ([] : List Char) :=
    congrArg String.data h
  rcases List.append_eq_nil.mp hd with ⟨h1, _⟩
  exact natToDec_ne_nil p.y h1

theorem pyTruthy_some (s : String) (h : s ≠ "") : pyTruthy (some s) = true := by
  simp [pyTruthy, h]

theorem timestampToDate_facts (s u : String) (h : TimestampToDate s = some u) :
    s ≠ "" ∧ u ≠ "" := by
  unfold TimestampToDate at h
  split at h
  · exact absurd h (by simp)
  · next hne =>
    refine ⟨hne, ?_⟩
    rcases hp : pyIntChars? s.data with _ | ts
    · rw [hp] at h
      exact absurd h (by simp)
    · rw [hp] at h
      simp only [] at h
      split at h
      · have hu := Option.some.inj h
        rw [← hu]
        exact strftimeYMD_ne_empty _
      · exact absurd h (by simp)

theorem digitVal?_digitChar (k : Nat) (hk : k ≤ 9) :
    digitVal? (digitChar k) = some k := by
  interval_cases k <;> decide

theorem digitChar_ne_slash (k : Nat) (hk : k ≤ 9) : ¬ (digitChar k = '/') := by
  interval_cases k <;> decide

theorem pyIsSpace_digitChar (k : Nat) (hk : k ≤ 9) :
    pyIsSpace (digitChar k) = false := by
  interval_cases k <;> decide

theorem matchMonthAbbrevs_digit (k : Nat) (hk : k ≤ 9) (cs : List Char) :
    matchMonth monthAbbrevs (digitChar k :: cs) = none := by
  interval_cases k <;> rfl

theorem matchMonthFulls_digit (k : Nat) (hk : k ≤ 9) (cs : List Char) :
    matchMonth monthFulls (digitChar k :: cs) = none := by
  interval_cases k <;> rfl

theorem fmtSlash_fail_three_digits (a b c : Nat) (ha : a ≤ 9) (hb : b ≤ 9)
    (hc : c ≤ 9) (rest : List Char) :
    fmtSlashMDY (digitChar a :: digitChar b :: digitChar c :: rest) = none
    ∧ fmtSlashMDy (digitChar a :: digitChar b :: digitChar c :: rest) = none
    ∧ ∀ cy, fmtSlashMD cy (digitChar a :: digitChar b :: digitChar c :: rest) = none := by
  have hva := digitVal?_digitChar a ha
  have hvb := digitVal?_digitChar b hb
  have hcs := digitChar_ne_slash c hc
  refine ⟨?_, ?_, fun cy => ?_⟩ <;>
    simp [fmtSlashMDY, fmtSlashMDy, fmtSlashMD, parseNum, parseNumAux, hva, hvb,
      expectChar, hcs]

theorem fmtMonthDY_fail_digit (tbl : List (Nat × List Char)) (comma : Bool)
    (k : Nat) (cs : List Char)
    (htbl : matchMonth tbl (digitChar k :: cs) = none) :
    fmtMonthDY tbl comma (digitChar k :: cs) = none := by
  simp [fmtMonthDY, htbl]

theorem option_none_orElse {α : Type} (f : Unit → Option α) :
    Option.orElse none f = f () := rfl

theorem option_some_orElse {α : Type} (a : α) (f : Unit → Option α) :
    Option.orElse (some a) f = some a := rfl

theorem natToDec_four (y : Nat) (h1 : 1000 ≤ y) (h2 : y ≤ 9999) :
    ∃ a1 a2 a3 a4, a1 ≤ 9 ∧ a2 ≤ 9 ∧ a3 ≤ 9 ∧ a4 ≤ 9
      ∧ natToDec y = [digitChar a1, digitChar a2, digitChar a3, digitChar a4]
      ∧ ((a1 * 10 + a2) * 10 + a3) * 10 + a4 = y := by
  refine ⟨y / 1000, y / 100 % 10, y / 10 % 10, y % 10, by omega, by omega,
    by omega, by omega, ?_, by omega⟩
  unfold natToDec
  rw [if_neg (by omega), if_neg (by omega), if_neg (by omega)]

theorem pad2_shape (n : Nat) (h : n ≤ 99) :
    ∃ b1 b2, b1 ≤ 9 ∧ b2 ≤ 9 ∧ pad2 n = [digitChar b1, digitChar b2]
      ∧ b1 * 10 + b2 = n := by
  rcases Nat.lt_or_ge n 10 with hn | hn
  · refine ⟨0, n, by omega, by omega, ?_, by omega⟩
    unfold pad2
    rw [if_pos hn, show ('0' : Char) = digitChar 0 from by decide]
  · refine ⟨n / 10, n % 10, by omega, by omega, ?_, by omega⟩
    unfold pad2
    rw [if_neg (by omega)]

/-- C7: round-trip — `_ParseDateString` applied to any of its own
canonical `YYYY-MM-DD` outputs (its `strftime("%Y-%m-%d")` rendering of a
valid four-digit-year date) returns that very string: the slash and
month-name formats all fail on it, the ISO format re-parses it exactly,
and re-rendering reproduces the string. -/
theorem parseDateString_roundtrip (cy y m d : Nat)
    (hy1 : 1000 ≤ y) (hy2 : y ≤ 9999) (hm1 : 1 ≤ m) (hm2 : m ≤ 12)
    (hd1 : 1 ≤ d) (hd2 : d ≤ daysInMonth y m) :
    ParseDateString cy (strftimeYMD ⟨y, m, d⟩) = some (strftimeYMD ⟨y, m, d⟩) := by
  obtain ⟨a1, a2, a3, a4, ha1, ha2, ha3, ha4, hnat, hyv⟩ := natToDec_four y hy1 hy2
  obtain ⟨b1, b2, hb1, hb2, hpm, hmv⟩ := pad2_shape m (by omega)
  have hd99 : d ≤ 99 := by
    have h31 : daysInMonth y m ≤ 31 := by
      unfold daysInMonth
      split
      · split <;> omega
      · split <;> omega
    omega
  obtain ⟨c1, c2, hc1, hc2, hpd, hdv⟩ := pad2_shape d hd99
  have hdata : (strftimeYMD ⟨y, m, d⟩).data
      = digitChar a1 :: digitChar a2 :: digitChar a3 :: digitChar a4 :: '-'
        :: digitChar b1 :: digitChar b2 :: '-' :: digitChar c1 :: digitChar c2 :: [] := by
    show natToDec y ++ '-' :: (pad2 m ++ '-' :: pad2 d) = _
    rw [hnat, hpm, hpd]
    rfl
  have hne := strftimeYMD_ne_empty ⟨y, m, d⟩
  unfold ParseDateString
  rw [if_neg hne, hdata]
  have htrim : trimChars (digitChar a1 :: digitChar a2 :: digitChar a3 :: digitChar a4
      :: '-' :: digitChar b1 :: digitChar b2 :: '-' :: digitChar c1 :: digitChar c2 :: [])
      = digitChar a1 :: digitChar a2 :: digitChar a3 :: digitChar a4 :: '-'
        :: digitChar b1 :: digitChar b2 :: '-' :: digitChar c1 :: digitChar c2 :: [] := by
    simp [trimChars, dropLeadingWs, dropTrailingWs,
      pyIsSpace_digitChar a1 ha1, pyIsSpace_digitChar a2 ha2,
      pyIsSpace_digitChar a3 ha3, pyIsSpace_digitChar a4 ha4,
      pyIsSpace_digitChar b1 hb1, pyIsSpace_digitChar b2 hb2,
      pyIsSpace_digitChar c1 hc1, pyIsSpace_digitChar c2 hc2,
      show pyIsSpace '-' = false from rfl]
  rw [htrim]
  have hvd : validDate y m d = true := by
    unfold validDate
    simp only [Bool.and_eq_true, decide_eq_true_eq]
    refine ⟨⟨⟨⟨⟨?_, ?_⟩, ?_⟩, ?_⟩, ?_⟩, ?_⟩ <;> omega
  have hiso : fmtISO (digitChar a1 :: digitChar a2 :: digitChar a3 :: digitChar a4
      :: '-' :: digitChar b1 :: digitChar b2 :: '-' :: digitChar c1 :: digitChar c2 :: [])
      = some ⟨y, m, d⟩ := by
    simp [fmtISO, parseNum, parseNumAux,
      digitVal?_digitChar a1 ha1, digitVal?_digitChar a2 ha2,
      digitVal?_digitChar a3 ha3, digitVal?_digitChar a4 ha4,
      digitVal?_digitChar b1 hb1, digitVal?_digitChar b2 hb2,
      digitVal?_digitChar c1 hc1, digitVal?_digitChar c2 hc2,
      show digitVal? '-' = none from by decide, expectChar, Option.bind,
      hyv, hmv, hdv, mkPDate, hvd]
  have hfail := fmtSlash_fail_three_digits a1 a2 a3 ha1 ha2 ha3
    (digitChar a4 :: '-' :: digitChar b1 :: digitChar b2 :: '-'
      :: digitChar c1 :: digitChar c2 :: [])
  unfold tryFormats
  rw [hfail.1, option_none_orElse, hfail.2.1, option_none_orElse, hfail.2.2 cy,
    option_none_orElse,
    fmtMonthDY_fail_digit monthAbbrevs true a1 _ (matchMonthAbbrevs_digit a1 ha1 _),
    option_none_orElse,
    fmtMonthDY_fail_digit monthAbbrevs false a1 _ (matchMonthAbbrevs_digit a1 ha1 _),
    option_none_orElse,
    fmtMonthDY_fail_digit monthFulls true a1 _ (matchMonthFulls_digit a1 ha1 _),
    option_none_orElse,
    fmtMonthDY_fail_digit monthFulls false a1 _ (matchMonthFulls_digit a1 ha1 _),
    option_none_orElse, hiso, option_some_orElse]
  rfl

/-- C7 witness: the concrete canonical output 2011-03-31 round-trips. -/
theorem parseDateString_roundtrip_witness :
    ParseDateString 2024 (strftimeYMD ⟨2011, 3, 31⟩) = some (strftimeYMD ⟨2011, 3, 31⟩) := by
  exact parseDateString_roundtrip 2024 2011 3 31 (by decide) (by decide) (by decide)
    (by decide) (by decide) (by decide)

/-- C1 (amended): with two or more timestamp spans, the scan's updated
date is the second-to-last timestamp converted and the published date the
last one converted; with exactly one timestamp span, that timestamp
(converted) becomes the published date, while the updated date is first
sought by pattern-matching the header line for "Updated" — only when that
text extraction yields nothing does the updated date fall back to equal
the published date. -/
theorem scanStory_timestamp_dates
    (cy : Nat) (currentDate : String) (stripHTML getSiteURL : String → String)
    (metadataURL : String) (lines xutimes : List String) (line3 : String)
    (hl : lines[3]? = some line3) :
    (∀ u p, 2 ≤ xutimes.length →
      TimestampToDate (xutimes.getD (xutimes.length - 2) "") = some u →
      TimestampToDate (xutimes.getD (xutimes.length - 1) "") = some p →
      ∀ md urls, InternallyScanStory cy currentDate stripHTML getSiteURL metadataURL
          (some ⟨lines, xutimes⟩) = ScanResult.success md urls →
        md.DateUpdated = u ∧ md.DatePublished = p)
    ∧ (∀ p, xutimes.length = 1 →
        TimestampToDate (xutimes.getD 0 "") = some p →
        ∀ md urls, InternallyScanStory cy currentDate stripHTML getSiteURL metadataURL
            (some ⟨lines, xutimes⟩) = ScanResult.success md urls →
          md.DatePublished = p
          ∧ (ExtractDateFromText cy line3 "Updated" = none → md.DateUpdated = p)
          ∧ (∀ t, ExtractDateFromText cy line3 "Updated" = some t → t ≠ "" →
              md.DateUpdated = t)) := by
  constructor
  · intro u p hn hu hp md urls hs
    obtain ⟨hsU, huU⟩ := timestampToDate_facts _ _ hu
    obtain ⟨hsP, hpP⟩ := timestampToDate_facts _ _ hp
    have hpy1 := pyTruthy_some _ hsU
    have hpy2 := pyTruthy_some _ hsP
    have hpy3 := pyTruthy_some _ huU
    have hpy4 := pyTruthy_some _ hpP
    simp only [InternallyScanStory, hl] at hs
    rcases hw : searchWords line3 with _ | wg
    · simp only [hw] at hs
      simp at hs
    · simp only [hw, if_pos hn, Option.getD_some, hpy1, hpy2, hu, hp, hpy3, hpy4,
        if_true] at hs
      split at hs
      · simp at hs
      · rcases hg : GetStoryID metadataURL with _ | sid
        · simp only [hg] at hs
          simp at hs
        · simp only [hg, ScanResult.success.injEq] at hs
          rw [← hs.1]
          exact ⟨rfl, rfl⟩
  · intro p hn hp md urls hs
    obtain ⟨hsP, hpP⟩ := timestampToDate_facts _ _ hp
    have hpy2 := pyTruthy_some _ hsP
    have hpy4 := pyTruthy_some _ hpP
    simp only [InternallyScanStory, hl] at hs
    rcases hw : searchWords line3 with _ | wg
    · simp only [hw] at hs
      simp at hs
    · simp only [hw, hn] at hs
      simp only [show ((2 : Nat) ≤ 1) = False from by simp, if_false,
        show ((1 : Nat) = 1) = True from by simp, if_true, pyTruthy] at hs
      simp only [show (1 : Nat) - 1 = 0 from rfl, Option.getD_some] at hs
      simp only [pyTruthy] at hpy2 hpy4
      simp only [hpy2, if_true, hp, hpy4, Option.getD_some] at hs
      split at hs
      · simp at hs
      · rcases hg : GetStoryID metadataURL with _ | sid
        · simp only [hg] at hs
          simp at hs
        · simp only [hg, ScanResult.success.injEq] at hs
          rw [← hs.1]
          refine ⟨rfl, ?_, ?_⟩
          · intro he
            simp [he, pyTruthy]
          · intro t ht hte
            simp [ht, pyTruthy, hte]

/-- C1 counterexample: a header with exactly one timestamp span whose
line also carries an "Updated: 1/2/2003" text date; the scan sets the
updated date from the text (2003-01-02), not equal to the published date
(1970-01-01 from the timestamp), refuting the claimed unconditional
fallback for single-timestamp headers. -/
theorem scanStory_single_timestamp_counterexample :
    (InternallyScanStory 2024 "2024-01-01" (fun s => s) (fun _ => "https://x.com")
        "https://x.com/s/123/1/"
        (some ⟨["T", "By: A", "S",
                "Rated: K - English - Words: 1,000 - Updated: 1/2/2003 - Published: 1h"],
               ["0"]⟩)
      = ScanResult.success ⟨"T", "A", "S", "1970-01-01", "2003-01-02", 1, 1000⟩
          ["https://x.com/s/123/1/"])
    ∧ (("2003-01-02" : String) ≠ "1970-01-01") := by
  exact ⟨by decide, by decide⟩

/-- C1 witness: concrete runs of both branches of the amended theorem —
a two-timestamp header routes updated/published from the second-to-last
and last timestamps, a one-timestamp header with no "Updated" text makes
the updated date fall back to the published date. -/
theorem scanStory_timestamp_dates_witness :
    ((InternallyScanStory 2024 "2024-01-01" (fun s => s) (fun _ => "https://x.com")
        "https://x.com/s/123/1/"
        (some ⟨["T", "By: A", "S", "Chapters: 2 - Words: 1,000 - Published: 1h"],
               ["86400", "0"]⟩)
      = ScanResult.success ⟨"T", "A", "S", "1970-01-01", "1970-01-02", 2, 1000⟩
          ["https://x.com/s/123/1/", "https://x.com/s/123/2/"])
      → (("1970-01-02" : String) = "1970-01-02" ∧ ("1970-01-01" : String) = "1970-01-01"))
    ∧ ((InternallyScanStory 2024 "2024-01-01" (fun s => s) (fun _ => "https://x.com")
        "https://x.com/s/123/1/"
        (some ⟨["T", "By: A", "S", "Words: 5"], ["0"]⟩)
      = ScanResult.success ⟨"T", "A", "S", "1970-01-01", "1970-01-01", 1, 5⟩
          ["https://x.com/s/123/1/"])
      → (("1970-01-01" : String) = "1970-01-01")) := by
  constructor
  · intro hs
    exact (scanStory_timestamp_dates 2024 "2024-01-01" (fun s => s)
      (fun _ => "https://x.com") "https://x.com/s/123/1/"
      ["T", "By: A", "S", "Chapters: 2 - Words: 1,000 - Published: 1h"]
      ["86400", "0"] "Chapters: 2 - Words: 1,000 - Published: 1h" rfl).1
      "1970-01-02" "1970-01-01" (by decide) (by decide) (by decide) _ _ hs
  · intro hs
    exact ((scanStory_timestamp_dates 2024 "2024-01-01" (fun s => s)
      (fun _ => "https://x.com") "https://x.com/s/123/1/"
      ["T", "By: A", "S", "Words: 5"] ["0"] "Words: 5" rfl).2
      "1970-01-01" rfl (by decide) _ _ hs).2.1 (by decide)

/-- C6: a header line without the word-count field makes the whole scan
fail with `False`; a missing chapter-count field is not an error — a
successful scan then reports `ChapterCount = 1`. -/
theorem scanStory_required_and_default_fields
    (cy : Nat) (currentDate : String) (stripHTML getSiteURL : String → String)
    (metadataURL : String) (lines xutimes : List String) (line3 : String)
    (hl : lines[3]? = some line3) :
    (searchWords line3 = none →
      InternallyScanStory cy currentDate stripHTML getSiteURL metadataURL
        (some ⟨lines, xutimes⟩) = ScanResult.failure)
    ∧ (searchChapters line3 = none →
        ∀ md urls, InternallyScanStory cy currentDate stripHTML getSiteURL metadataURL
            (some ⟨lines, xutimes⟩) = ScanResult.success md urls →
          md.ChapterCount = 1) := by
  constructor
  · intro hw
    simp [InternallyScanStory, hl, hw]
  · intro hcc md urls hs
    simp only [InternallyScanStory, hl] at hs
    rcases hw : searchWords line3 with _ | wg
    · simp only [hw] at hs
      simp at hs
    · simp only [hw, hcc] at hs
      split at hs
      · simp at hs
      · rcases hg : GetStoryID metadataURL with _ | sid
        · simp only [hg] at hs
          simp at hs
        · simp only [hg, ScanResult.success.injEq] at hs
          rw [← hs.1]

/-- C6 witness: a header without a word count fails; a header without a
chapter count succeeds with `ChapterCount = 1`. -/
theorem scanStory_required_and_default_fields_witness :
    (InternallyScanStory 2024 "2024-01-01" (fun s => s) (fun _ => "https://x.com")
        "https://x.com/s/123/1/"
        (some ⟨["T", "By: A", "S", "Rated: K - English"], ["0"]⟩)
      = ScanResult.failure)
    ∧ ((InternallyScanStory 2024 "2024-01-01" (fun s => s) (fun _ => "https://x.com")
        "https://x.com/s/123/1/"
        (some ⟨["T", "By: A", "S", "Words: 5"], ["0"]⟩)
      = ScanResult.success ⟨"T", "A", "S", "1970-01-01", "1970-01-01", 1, 5⟩
          ["https://x.com/s/123/1/"])
      → ((⟨"T", "A", "S", "1970-01-01", "1970-01-01", 1, 5⟩ : StoryMetadata).ChapterCount = 1)) := by
  constructor
  · exact (scanStory_required_and_default_fields 2024 "2024-01-01" (fun s => s)
      (fun _ => "https://x.com") "https://x.com/s/123/1/"
      ["T", "By: A", "S", "Rated: K - English"] ["0"] "Rated: K - English" rfl).1
      (by decide)
  · intro hs
    exact (scanStory_required_and_default_fields 2024 "2024-01-01" (fun s => s)
      (fun _ => "https://x.com") "https://x.com/s/123/1/"
      ["T", "By: A", "S", "Words: 5"] ["0"] "Words: 5" rfl).2 (by decide) _ _ hs

/-- C9 witness: concrete instances of each conjunct. -/
theorem client_operations_total_witness :
    (IsFlareSolverrRunning (ProbeResult.gotStatus 500) = false)
    ∧ ((SolveChallenge ⟨fun _ => TransportResult.timeout, fun _ => none⟩
        "u" 60000 3 (initFSState none)).1 = none)
    ∧ (DestroySession true (some "sid") = none) := by
  refine ⟨client_operations_total.2.1 500 (by decide), ?_, ?_⟩
  · exact client_operations_total.2.2.1 ⟨fun _ => TransportResult.timeout, fun _ => none⟩
      "u" 60000 3 (initFSState none) (fun n => rfl)
  · exact client_operations_total.2.2.2 true (some "sid")

end FDL

